import Mathlib

/-
Shallow embedding of the ESP32 futsal alarm/timer system
(src: ESP32_Alarm_SystemVwav.ino.ino).

Machine integers: all `unsigned long` quantities (millis timestamps,
durations in ms) are modelled as Nat reduced modulo 2^32 wherever the C code
can wrap (subtraction, the duration multiplication in handleStart).  The C
`int` request fields that may be negative are modelled as Int and converted
with ulOfInt at the points where the code converts them to unsigned long.
-/

set_option maxRecDepth 4096

/-- Modulus of a 32-bit unsigned long on the ESP32. -/
def ulMod : Nat := 4294967296

/-- Unsigned 32-bit subtraction: the value of the C expression a - b on
unsigned long operands. -/
def usub (a b : Nat) : Nat := (a % ulMod + (ulMod - b % ulMod)) % ulMod

/-- Conversion of a C int value to unsigned long (mod 2^32). -/
def ulOfInt (n : Int) : Nat := (n % (ulMod : Int)).toNat

/-- struct Timer (one per court). -/
structure Timer where
  running : Bool
  paused : Bool
  startTime : Nat
  pauseTime : Nat
  duration : Nat
  remainingTime : Nat
  warningTriggered : Bool
  alarmTriggered : Bool
  playerName : String
  sessionCount : Nat
  totalPlayTime : Nat
deriving DecidableEq

/-- struct CourtSettings (one per court).  warningTime and volume are C ints. -/
structure CourtSettings where
  volume : Int
  warningTime : Int
  loopAlarm : Bool
deriving DecidableEq

/-- struct Config (global). -/
structure Config where
  globalVolume : Int
  alarmDuration : Nat
  warningDuration : Nat
  useSDCard : Bool
deriving DecidableEq

/-- struct AlarmState (one per court). -/
structure AlarmState where
  active : Bool
  startTime : Nat
  duration : Nat
  isWarning : Bool
  fieldIndex : Nat
  looping : Bool
deriving DecidableEq

/-- Storage backend of an open audio file source (fileSD / fileLittleFS). -/
inductive Src where
  | sd
  | lfs
deriving DecidableEq

/-- Identity of the clip currently rendered on the shared audio channel:
the arguments of the playAudio call that succeeded, plus backend and path. -/
structure Clip where
  court : Fin 4
  isWarning : Bool
  src : Src
  path : String
deriving DecidableEq

/-- Fixed environment facts for audio: availability flags set in setup() and
the outcome of SD.exists / LittleFS.exists / wav begin on each path. -/
structure AudioEnv where
  sdCardAvailable : Bool
  littleFSAvailable : Bool
  audioSystemReady : Bool
  sdExists : String → Bool
  lfsExists : String → Bool
  sdBeginOk : String → Bool
  lfsBeginOk : String → Bool

/-- Whole mutable state touched by the core logic: timers[4],
courtSettings[4], config, alarmStates[4], the LED outputs, and the single
shared audio channel (wav/fileSD/fileLittleFS/audioPlaying collapse to an
Option Clip: none = idle, some = one live playback). -/
structure SysState where
  timers : Fin 4 → Timer
  courtSettings : Fin 4 → CourtSettings
  config : Config
  alarmStates : Fin 4 → AlarmState
  leds : Fin 4 → Bool
  channel : Option Clip

/-- Point update of a per-court array. -/
def upd {α : Type} (f : Fin 4 → α) (i : Fin 4) (a : α) : Fin 4 → α :=
  fun j => if j = i then a else f j

/-- const char* audioFiles[4][2]; audioFiles[i][1] is the warning clip. -/
def audioFiles (i : Fin 4) (isWarning : Bool) : String :=
  if isWarning then
    match i.val with
    | 0 => "/audio/warning1.wav"
    | 1 => "/audio/warning2.wav"
    | 2 => "/audio/warning3.wav"
    | _ => "/audio/warning4.wav"
  else
    match i.val with
    | 0 => "/audio/alarm1.wav"
    | 1 => "/audio/alarm2.wav"
    | 2 => "/audio/alarm3.wav"
    | _ => "/audio/alarm4.wav"

/-- const char* defaultAudioFiles[2]; index 1 is the warning clip. -/
def defaultAudioFiles (isWarning : Bool) : String :=
  if isWarning then "/audio/warning.wav" else "/audio/alarm.wav"

/-- One storage attempt of playAudio: on the SD branch (useSD) try SD only;
otherwise, if LittleFS is available, try LittleFS; a failed wav begin and a
missing file both fall through to none. -/
def tryOpen (env : AudioEnv) (useSD : Bool) (court : Fin 4) (isWarning : Bool)
    (path : String) : Option Clip :=
  if useSD then
    if env.sdExists path && env.sdBeginOk path then
      some ⟨court, isWarning, Src.sd, path⟩
    else none
  else if env.littleFSAvailable then
    if env.lfsExists path && env.lfsBeginOk path then
      some ⟨court, isWarning, Src.lfs, path⟩
    else none
  else none

/-- Outcome of the search part of playAudio (after the initial stopAudio):
field-specific file first, then the device-wide default file. -/
def playResult (env : AudioEnv) (cfg : Config) (fieldIndex : Fin 4)
    (isWarning : Bool) : Option Clip :=
  let useSD := cfg.useSDCard && env.sdCardAvailable
  match tryOpen env useSD fieldIndex isWarning (audioFiles fieldIndex isWarning) with
  | some c => some c
  | none => tryOpen env useSD fieldIndex isWarning (defaultAudioFiles isWarning)

/-- void playAudio(int fieldIndex, bool isWarning): returns the new channel
content.  If the audio system is not ready it returns without stopping;
otherwise it first stops the current clip and then installs the search
outcome (none when no file could be opened). -/
def playAudio (env : AudioEnv) (cfg : Config) (fieldIndex : Fin 4)
    (isWarning : Bool) (chan : Option Clip) : Option Clip :=
  if !env.audioSystemReady then chan
  else playResult env cfg fieldIndex isWarning

/-- void stopAudio(): releases the generator and both file sources and
clears audioPlaying; the channel becomes idle. -/
def stopAudio (s : SysState) : SysState :=
  { s with channel := none }

/-- void activateLED(int index). -/
def activateLED (i : Fin 4) (s : SysState) : SysState :=
  { s with leds := upd s.leds i true }

/-- void deactivateLED(int index). -/
def deactivateLED (i : Fin 4) (s : SysState) : SysState :=
  { s with leds := upd s.leds i false }

/-- void triggerAlarm(int index, int durationSeconds, bool isWarning). -/
def triggerAlarm (env : AudioEnv) (now : Nat) (index : Fin 4)
    (durationSeconds : Nat) (isWarning : Bool) (s : SysState) : SysState :=
  let a1 : AlarmState :=
    { active := true, startTime := now, duration := durationSeconds * 1000,
      isWarning := isWarning, fieldIndex := index.val,
      looping := (s.courtSettings index).loopAlarm }
  let s1 := { s with alarmStates := upd s.alarmStates index a1 }
  let s2 := activateLED index s1
  { s2 with channel := playAudio env s2.config index isWarning s2.channel }

/-- Timer events raised by one court in one updateTimers pass. -/
inductive TEv where
  | warning
  | expired
deriving DecidableEq

/-- The C long remaining = (duration - elapsed) / 1000 of updateTimers,
followed by the clamp if (remaining less than 0) remaining = 0.  The
subtraction and division happen on unsigned long, and the resulting value
is below 2^31, so the conversion to long preserves it and the clamp can
never fire. -/
def remainingOf (now : Nat) (tm : Timer) : Int :=
  let elapsed := usub now tm.startTime
  let remaining0 : Int := ((usub tm.duration elapsed) / 1000 : Nat)
  if remaining0 < 0 then 0 else remaining0

/-- Per-court body of updateTimers: recompute remainingTime/totalPlayTime,
then the warning latch check, then the expiry latch check. -/
def timerTick (cs : CourtSettings) (now : Nat) (tm : Timer) : Timer × List TEv :=
  if !tm.running || tm.paused then (tm, [])
  else
    let remaining := remainingOf now tm
    let tm1 := { tm with remainingTime := remaining.toNat,
                         totalPlayTime := usub now tm.startTime / 1000 }
    let warnFire := !tm1.warningTriggered
      && decide (remaining ≤ cs.warningTime * 60) && decide (0 < remaining)
    let tm2 := if warnFire then { tm1 with warningTriggered := true } else tm1
    let expFire := !tm2.alarmTriggered && decide (remaining ≤ 0)
    let tm3 := if expFire then
        { tm2 with alarmTriggered := true, running := false } else tm2
    (tm3, (if warnFire then [TEv.warning] else [])
       ++ (if expFire then [TEv.expired] else []))

/-- The timer record produced by the expiry branch of updateTimers:
remainingTime recomputed to 0, totalPlayTime updated, the expiry latch set
and running cleared. -/
def expiredTimer (now : Nat) (tm : Timer) : Timer :=
  { tm with remainingTime := 0, totalPlayTime := usub now tm.startTime / 1000,
            alarmTriggered := true, running := false }

/-- The triggerAlarm call made for one timer event of court i: warning events
play for config.warningDuration seconds, expiry events for
config.alarmDuration seconds. -/
def applyTimerEvent (env : AudioEnv) (now : Nat) (i : Fin 4) (ev : TEv)
    (s : SysState) : SysState :=
  match ev with
  | TEv.warning => triggerAlarm env now i s.config.warningDuration true s
  | TEv.expired => triggerAlarm env now i s.config.alarmDuration false s

/-- One court of the updateTimers loop body. -/
def updateTimersCourt (env : AudioEnv) (now : Nat) (i : Fin 4)
    (s : SysState) : SysState :=
  let r := timerTick (s.courtSettings i) now (s.timers i)
  let s1 := { s with timers := upd s.timers i r.1 }
  r.2.foldl (fun acc ev => applyTimerEvent env now i ev acc) s1

/-- Loop order of the per-court for loops: i = 0, 1, 2, 3. -/
def courtOrder : List (Fin 4) := [0, 1, 2, 3]

/-- void updateTimers(). -/
def updateTimers (env : AudioEnv) (now : Nat) (s : SysState) : SysState :=
  courtOrder.foldl (fun acc i => updateTimersCourt env now i acc) s

/-- One court of the updateAlarms loop body: skip inactive alarms; once the
alarm window has elapsed, either restart it and replay the clip (looping)
or deactivate it, switch the LED off and stop the audio channel. -/
def updateAlarmCourt (env : AudioEnv) (now : Nat) (i : Fin 4)
    (s : SysState) : SysState :=
  let a := s.alarmStates i
  if !a.active then s
  else
    let elapsed := usub now a.startTime
    if a.duration ≤ elapsed then
      if a.looping && (s.courtSettings i).loopAlarm then
        let s1 := { s with alarmStates := upd s.alarmStates i { a with startTime := now } }
        { s1 with channel := playAudio env s1.config i a.isWarning s1.channel }
      else
        let s1 := { s with alarmStates := upd s.alarmStates i { a with active := false } }
        stopAudio (deactivateLED i s1)
    else s

/-- void updateAlarms(). -/
def updateAlarms (env : AudioEnv) (now : Nat) (s : SysState) : SysState :=
  courtOrder.foldl (fun acc i => updateAlarmCourt env now i acc) s

/-- Body of handleStart for an in-range court: no validation of the
requested duration happens; the timer is restarted unconditionally.
duration is the C int request field (minutes). -/
def handleStartCourt (i : Fin 4) (duration : Int) (playerName : String)
    (now : Nat) (s : SysState) : SysState :=
  let tm := s.timers i
  let tm1 : Timer :=
    { tm with running := true, paused := false, startTime := now,
              duration := ulOfInt (duration * 60) * 1000 % ulMod,
              remainingTime := ulOfInt (duration * 60),
              warningTriggered := false, alarmTriggered := false,
              playerName := playerName,
              sessionCount := tm.sessionCount + 1 }
  { s with timers := upd s.timers i tm1 }

/-- void handleStart(): court range check, then the unconditional restart. -/
def handleStart (courtId : Int) (duration : Int) (playerName : String)
    (now : Nat) (s : SysState) : SysState :=
  if h : courtId < 0 ∨ 4 ≤ courtId then s
  else handleStartCourt ⟨courtId.toNat, by omega⟩ duration playerName now s

/-- The timer record written by the pause branch of handlePause. -/
def pausedTimer (now : Nat) (tm : Timer) : Timer :=
  { tm with paused := true, pauseTime := now }

/-- The timer record written by the resume branch of handlePause: startTime
shifted forward by the paused interval (unsigned arithmetic). -/
def resumedTimer (now : Nat) (tm : Timer) : Timer :=
  { tm with startTime := (tm.startTime + usub now tm.pauseTime) % ulMod,
            paused := false }

/-- Body of handlePause for an in-range court: pause when running and not
paused, resume (shifting startTime by the paused interval) when paused,
otherwise do nothing. -/
def handlePauseCourt (i : Fin 4) (now : Nat) (s : SysState) : SysState :=
  let tm := s.timers i
  if tm.running && !tm.paused then
    { s with timers := upd s.timers i (pausedTimer now tm) }
  else if tm.paused then
    { s with timers := upd s.timers i (resumedTimer now tm) }
  else s

/-- void handlePause(): court range check, then the toggle. -/
def handlePause (courtId : Int) (now : Nat) (s : SysState) : SysState :=
  if h : courtId < 0 ∨ 4 ≤ courtId then s
  else handlePauseCourt ⟨courtId.toNat, by omega⟩ now s

/-- Body of handleStop for an in-range court: reset the timer, switch the
LED off and stop the audio channel unconditionally.  The AlarmState of the
court is not touched. -/
def handleStopCourt (i : Fin 4) (s : SysState) : SysState :=
  let tm := s.timers i
  let tm1 : Timer := { tm with running := false, paused := false, remainingTime := 0 }
  let s1 := { s with timers := upd s.timers i tm1 }
  stopAudio (deactivateLED i s1)

/-- void handleStop(): court range check, then the stop. -/
def handleStop (courtId : Int) (s : SysState) : SysState :=
  if h : courtId < 0 ∨ 4 ≤ courtId then s
  else handleStopCourt ⟨courtId.toNat, by omega⟩ s

/-- A run of updateTimers passes for a single court, at the listed clock
values, collecting all timer events raised along the way. -/
def runTicks (cs : CourtSettings) (tm : Timer) : List Nat → Timer × List TEv
  | [] => (tm, [])
  | t :: ts =>
    let r := timerTick cs t tm
    let rest := runTicks cs r.1 ts
    (rest.1, r.2 ++ rest.2)

/-- Number of occurrences of one event kind. -/
def countEv (e : TEv) (l : List TEv) : Nat := l.count e

/-- Clips currently live on the shared channel. -/
def liveClips (s : SysState) : List Clip := s.channel.toList

/-- Spec invariant of §3: each LED agrees with the active flag of the
AlarmState of its court. -/
def ledConsistent (s : SysState) : Prop :=
  ∀ i : Fin 4, s.leds i = (s.alarmStates i).active

/-- Per-court settings as loaded by setup() with empty preferences. -/
def defaultSettings : CourtSettings := ⟨70, 5, false⟩

/-- A timer as initialised by setup(). -/
def idleTimer : Timer := ⟨false, false, 0, 0, 0, 0, false, false, "", 0, 0⟩

/-- Global config as loaded by loadConfiguration() with empty preferences. -/
def defaultConfig : Config := ⟨70, 12, 8, true⟩

/-- State after setup(): everything idle, LEDs low, channel idle. -/
def initState : SysState :=
  { timers := fun _ => idleTimer
    courtSettings := fun _ => defaultSettings
    config := defaultConfig
    alarmStates := fun i => ⟨false, 0, 0, false, i.val, false⟩
    leds := fun _ => false
    channel := none }

/-- Audio environment in which both backends are mounted and every file
exists and opens successfully. -/
def envAll : AudioEnv :=
  ⟨true, true, true, fun _ => true, fun _ => true, fun _ => true, fun _ => true⟩

/-- Concrete input for the Stop scenario: court 2 alarm active (LED on),
the channel rendering the court 2 expiry clip, everything else idle. -/
def stopSt : SysState :=
  { initState with
    alarmStates := upd initState.alarmStates 2 ⟨true, 0, 12000, false, 2, false⟩
    leds := upd initState.leds 2 true
    channel := some ⟨2, false, Src.sd, "/audio/alarm3.wav"⟩ }

/-- Audio environment in which only the court 1 (index 0) expiry clip exists,
on the SD card. -/
def c2Env : AudioEnv :=
  ⟨true, true, true, fun p => p == "/audio/alarm1.wav", fun _ => false,
   fun _ => true, fun _ => true⟩

/-- Concrete input for preemption: court 0 alarm active and owning the
channel with its expiry clip. -/
def c2St : SysState :=
  { initState with
    alarmStates := upd initState.alarmStates 0 ⟨true, 0, 12000, false, 0, false⟩
    leds := upd initState.leds 0 true
    channel := some ⟨0, false, Src.sd, "/audio/alarm1.wav"⟩ }

/-- Concrete input for non-looping deactivation: court 0 alarm active,
non-looping, its 5 s window long elapsed at clock 10000; court 1 alarm
active mid-window and owning the channel with its own expiry clip. -/
def c3St : SysState :=
  { initState with
    alarmStates := upd (upd initState.alarmStates 0 ⟨true, 0, 5000, false, 0, false⟩)
      1 ⟨true, 10000, 60000, false, 1, true⟩
    leds := upd (upd initState.leds 0 true) 1 true
    channel := some ⟨1, false, Src.sd, "/audio/alarm2.wav"⟩ }

/-- A timer one tick away from expiry: 60 s run started at clock 0. -/
def c4Timer : Timer := ⟨true, false, 0, 0, 60000, 60, true, false, "", 1, 0⟩

/-- Concrete input for the same-tick double expiry: courts 0 and 1 both
running with windows that end at clock 60000. -/
def c4St : SysState :=
  { initState with timers := upd (upd initState.timers 0 c4Timer) 1 c4Timer }

/-- A running timer used to witness the expiry event: 5 s run started at
clock 0, warning latch already consumed. -/
def c7Timer : Timer := ⟨true, false, 0, 0, 5000, 5, true, false, "", 1, 0⟩

/-- A running timer used for the pause/resume property: 60 s run started
at clock 100. -/
def c8Timer : Timer := ⟨true, false, 100, 0, 60000, 60, false, false, "", 1, 0⟩

/-- State with the court 0 timer running, for the pause/resume property. -/
def c8St : SysState :=
  { initState with timers := upd initState.timers 0 c8Timer }

/-- Concrete input exhibiting the unsigned wrap of remaining: 60 s run
started at clock 0, ticked at 58999 and then at 60001 (the update pass
skipped the final second of the window). -/
def c9Timer : Timer := ⟨true, false, 0, 0, 60000, 60, true, false, "", 1, 0⟩

/-- The timer after the tick at clock 58999. -/
def c9Tm1 : Timer := (timerTick defaultSettings 58999 c9Timer).1

/-- The timer after the further tick at clock 60001. -/
def c9Tm2 : Timer := (timerTick defaultSettings 60001 c9Tm1).1


/-! Helper lemmas about per-court array updates and the request-boundary
court range check. -/

@[simp] theorem upd_same {α : Type} (f : Fin 4 → α) (i : Fin 4) (a : α) :
    upd f i a i = a := by
  simp [upd]

@[simp] theorem upd_ne {α : Type} (f : Fin 4 → α) (i j : Fin 4) (a : α)
    (h : j ≠ i) : upd f i a j = f j := by
  simp [upd, h]

@[simp] theorem upd_self {α : Type} (f : Fin 4 → α) (i : Fin 4) :
    upd f i (f i) = f := by
  funext j
  by_cases h : j = i
  · subst h; simp [upd]
  · simp [upd, h]

theorem handleStart_val (c : Fin 4) (d : Int) (p : String) (now : Nat)
    (s : SysState) : handleStart c.val d p now s = handleStartCourt c d p now s := by
  have h : ¬((c.val : Int) < 0 ∨ 4 ≤ (c.val : Int)) := by
    have := c.isLt; omega
  rw [handleStart, dif_neg h]
  rfl

theorem handlePause_val (c : Fin 4) (now : Nat) (s : SysState) :
    handlePause c.val now s = handlePauseCourt c now s := by
  have h : ¬((c.val : Int) < 0 ∨ 4 ≤ (c.val : Int)) := by
    have := c.isLt; omega
  rw [handlePause, dif_neg h]
  rfl

theorem handleStop_val (c : Fin 4) (s : SysState) :
    handleStop c.val s = handleStopCourt c s := by
  have h : ¬((c.val : Int) < 0 ∨ 4 ≤ (c.val : Int)) := by
    have := c.isLt; omega
  rw [handleStop, dif_neg h]
  rfl

/-! Claim C1: external Stop. -/

/-- C1 (counterexample): Stop(court=2) while the court 2 alarm is active and
owns the channel does switch the LED off and idle the channel, but the
court 2 AlarmState stays active, contradicting the claim that Stop sets it
to inactive. -/
theorem C1_counterexample :
    (stopSt.alarmStates 2).active = true ∧
    stopSt.channel = some ⟨2, false, Src.sd, "/audio/alarm3.wav"⟩ ∧
    ((handleStop 2 stopSt).alarmStates 2).active = true ∧
    (handleStop 2 stopSt).leds 2 = false ∧
    (handleStop 2 stopSt).channel = none := by
  decide

/-- C1 (amended): handling Stop(c) while the court c alarm is active and the
channel belongs to c turns the LED of c off and idles the channel, but
leaves the AlarmState array, and in particular the active flag of court c,
completely unchanged; the LEDs of every other court are untouched. -/
theorem C1_stop_behavior (c : Fin 4) (s : SysState)
    (hact : (s.alarmStates c).active = true)
    (_hown : ∃ cl, s.channel = some cl ∧ cl.court = c) :
    (handleStop c.val s).leds c = false ∧
    (handleStop c.val s).channel = none ∧
    ((handleStop c.val s).alarmStates c).active = true ∧
    (handleStop c.val s).alarmStates = s.alarmStates ∧
    (∀ j, j ≠ c → (handleStop c.val s).leds j = s.leds j) := by
  rw [handleStop_val]
  refine ⟨?_, rfl, hact, rfl, ?_⟩
  · simp [handleStopCourt, stopAudio, deactivateLED]
  · intro j hj
    simp [handleStopCourt, stopAudio, deactivateLED, hj]

/-- C1 (witness): the amended Stop behaviour at the concrete Stop(2)
scenario input. -/
theorem C1_witness :
    (handleStop 2 stopSt).leds 2 = false ∧
    (handleStop 2 stopSt).channel = none ∧
    ((handleStop 2 stopSt).alarmStates 2).active = true := by
  have h := C1_stop_behavior 2 stopSt (by decide)
    ⟨⟨2, false, Src.sd, "/audio/alarm3.wav"⟩, rfl, rfl⟩
  exact ⟨h.1, h.2.1, h.2.2.1⟩

/-! Claim C5: LED as a function of the active flag. -/

theorem triggerAlarm_ledConsistent (env : AudioEnv) (now : Nat) (i : Fin 4)
    (d : Nat) (w : Bool) (s : SysState) (h : ledConsistent s) :
    ledConsistent (triggerAlarm env now i d w s) := by
  intro j
  by_cases hj : j = i
  · subst hj
    simp [triggerAlarm, activateLED]
  · simp [triggerAlarm, activateLED, hj, h j]

theorem updateAlarmCourt_ledConsistent (env : AudioEnv) (now : Nat)
    (i : Fin 4) (s : SysState) (h : ledConsistent s) :
    ledConsistent (updateAlarmCourt env now i s) := by
  intro j
  unfold updateAlarmCourt
  dsimp only
  split
  · exact h j
  · split
    · split
      · by_cases hj : j = i
        · subst hj
          simpa using h j
        · simp [hj, h j]
      · by_cases hj : j = i
        · subst hj
          simp [stopAudio, deactivateLED]
        · simp [stopAudio, deactivateLED, hj, h j]
    · exact h j

theorem updateAlarms_ledConsistent (env : AudioEnv) (now : Nat)
    (s : SysState) (h : ledConsistent s) :
    ledConsistent (updateAlarms env now s) := by
  unfold updateAlarms courtOrder
  simp only [List.foldl]
  exact updateAlarmCourt_ledConsistent _ _ _ _
    (updateAlarmCourt_ledConsistent _ _ _ _
      (updateAlarmCourt_ledConsistent _ _ _ _
        (updateAlarmCourt_ledConsistent _ _ _ _ h)))

/-- C5 (counterexample): the state of the Stop(2) scenario satisfies the
LED/active invariant, but after handleStop(2) the court 2 LED is off while
its AlarmState is still active, so the LED is not a function of the active
flag after an external Stop. -/
theorem C5_counterexample :
    ledConsistent stopSt ∧ ¬ ledConsistent (handleStop 2 stopSt) := by
  constructor
  · unfold ledConsistent
    decide
  · unfold ledConsistent
    decide

/-- C5 (amended): triggerAlarm and updateAlarms preserve the invariant that
each LED equals the active flag of its court, but handleStop switches the
LED of the stopped court off while leaving its AlarmState untouched, so the
invariant can break after an external Stop. -/
theorem C5_led_invariant :
    (∀ env now (i : Fin 4) d w s, ledConsistent s →
      ledConsistent (triggerAlarm env now i d w s)) ∧
    (∀ env now s, ledConsistent s → ledConsistent (updateAlarms env now s)) ∧
    (∀ (c : Fin 4) s, (handleStop c.val s).leds c = false ∧
      (handleStop c.val s).alarmStates = s.alarmStates) := by
  refine ⟨triggerAlarm_ledConsistent, updateAlarms_ledConsistent, ?_⟩
  intro c s
  rw [handleStop_val]
  exact ⟨by simp [handleStopCourt, stopAudio, deactivateLED], rfl⟩

/-- C5 (witness): the preservation part applied at a concrete trigger on the
initial state. -/
theorem C5_witness :
    ledConsistent initState ∧
    ledConsistent (triggerAlarm envAll 5 0 12 false initState) :=
  ⟨by unfold ledConsistent; decide,
   C5_led_invariant.1 envAll 5 0 12 false initState (by unfold ledConsistent; decide)⟩

/-! Claim C6: Start request validation. -/

/-- C6 (counterexample): a Start request with the non-positive duration 0 is
not rejected: it flips the court 0 timer to running and increments its
session counter, so the state is changed. -/
theorem C6_counterexample :
    ((0 : Int) ≤ 0) ∧
    (initState.timers 0).running = false ∧
    (initState.timers 0).sessionCount = 0 ∧
    ((handleStart 0 0 "x" 5000 initState).timers 0).running = true ∧
    ((handleStart 0 0 "x" 5000 initState).timers 0).sessionCount = 1 := by
  decide

/-- C6 (amended): handleStart validates only the court index.  Any duration
value, non-positive included, is accepted: the target timer is restarted
with running, cleared latches, startTime = now, the converted duration and
an incremented session count, and no other state is touched. -/
theorem C6_start_no_duration_check (c : Fin 4) (d : Int) (p : String)
    (now : Nat) (s : SysState) :
    ((handleStart c.val d p now s).timers c =
      { s.timers c with running := true, paused := false, startTime := now,
                        duration := ulOfInt (d * 60) * 1000 % ulMod,
                        remainingTime := ulOfInt (d * 60),
                        warningTriggered := false, alarmTriggered := false,
                        playerName := p,
                        sessionCount := (s.timers c).sessionCount + 1 }) ∧
    (∀ j, j ≠ c → (handleStart c.val d p now s).timers j = s.timers j) ∧
    (handleStart c.val d p now s).alarmStates = s.alarmStates ∧
    (handleStart c.val d p now s).leds = s.leds ∧
    (handleStart c.val d p now s).channel = s.channel := by
  rw [handleStart_val]
  refine ⟨by simp [handleStartCourt], ?_, rfl, rfl, rfl⟩
  intro j hj
  simp [handleStartCourt, hj]

/-- C6 (witness): the amended Start behaviour at a concrete negative
duration request. -/
theorem C6_witness :
    (handleStart 0 (-3) "p" 7 initState).timers 0 =
      { initState.timers 0 with running := true, paused := false, startTime := 7,
                                duration := ulOfInt ((-3) * 60) * 1000 % ulMod,
                                remainingTime := ulOfInt ((-3) * 60),
                                warningTriggered := false,
                                alarmTriggered := false, playerName := "p",
                                sessionCount := (initState.timers 0).sessionCount + 1 } ∧
    (handleStart 0 (-3) "p" 7 initState).timers 1 = initState.timers 1 := by
  have h := C6_start_no_duration_check 0 (-3) "p" 7 initState
  exact ⟨h.1, h.2.1 1 (by decide)⟩

/-! Claim C2: single playback slot and preemption. -/

theorem tryOpen_shape (env : AudioEnv) (useSD : Bool) (i : Fin 4) (w : Bool)
    (path : String) (cl : Clip) (h : tryOpen env useSD i w path = some cl) :
    cl.court = i ∧ cl.isWarning = w ∧ cl.path = path := by
  unfold tryOpen at h
  split_ifs at h <;> simp_all
  · subst h
    exact ⟨rfl, rfl, rfl⟩
  · subst h
    exact ⟨rfl, rfl, rfl⟩

theorem playResult_shape (env : AudioEnv) (cfg : Config) (i : Fin 4) (w : Bool)
    (cl : Clip) (h : playResult env cfg i w = some cl) :
    cl.court = i ∧ cl.isWarning = w := by
  unfold playResult at h
  dsimp only at h
  split at h
  · rename_i heq
    cases h
    exact ⟨(tryOpen_shape _ _ _ _ _ _ heq).1, (tryOpen_shape _ _ _ _ _ _ heq).2.1⟩
  · exact ⟨(tryOpen_shape _ _ _ _ _ _ h).1, (tryOpen_shape _ _ _ _ _ _ h).2.1⟩

/-- C2 (counterexample): with only the court 0 expiry clip present on the
SD card, triggering the court 1 alarm while the court 0 clip is playing
stops the court 0 audio but does not transfer ownership to court 1: the
channel ends up idle because no clip for court 1 (nor the default) opens. -/
theorem C2_counterexample :
    c2St.channel = some ⟨0, false, Src.sd, "/audio/alarm1.wav"⟩ ∧
    (c2St.alarmStates 0).active = true ∧
    (triggerAlarm c2Env 99 1 12 false c2St).channel = none ∧
    (triggerAlarm c2Env 99 1 12 false c2St).leds 0 = true ∧
    ((triggerAlarm c2Env 99 1 12 false c2St).alarmStates 0).active = true := by
  decide

/-- C2 (amended): the shared channel holds at most one live clip at any
instant, and triggering the court b alarm while a clip of court a is live
always stops the court a clip and leaves the LED and AlarmState of court a
untouched; the channel then holds the outcome of the playAudio search for
court b, which is a clip of court b when some file opens and idle
otherwise. -/
theorem C2_single_channel_preemption :
    (∀ s : SysState, (liveClips s).length ≤ 1) ∧
    (∀ env now (a b : Fin 4) d w s cl,
      env.audioSystemReady = true →
      s.channel = some cl → cl.court = a → a ≠ b →
      (triggerAlarm env now b d w s).channel = playResult env s.config b w ∧
      (triggerAlarm env now b d w s).channel ≠ some cl ∧
      (∀ cl2, (triggerAlarm env now b d w s).channel = some cl2 → cl2.court = b) ∧
      (triggerAlarm env now b d w s).leds a = s.leds a ∧
      (triggerAlarm env now b d w s).alarmStates a = s.alarmStates a) := by
  constructor
  · intro s
    cases h : s.channel <;> simp [liveClips, h]
  · intro env now a b d w s cl hready hch hcourt hab
    have hchan : (triggerAlarm env now b d w s).channel = playResult env s.config b w := by
      simp [triggerAlarm, activateLED, playAudio, hready]
    refine ⟨hchan, ?_, ?_, ?_, ?_⟩
    · rw [hchan]
      intro hcl
      have := (playResult_shape env s.config b w cl hcl).1
      exact hab (hcourt ▸ this.symm ▸ rfl)
    · intro cl2 hcl2
      rw [hchan] at hcl2
      exact (playResult_shape env s.config b w cl2 hcl2).1
    · have hba : a ≠ b := hab
      simp [triggerAlarm, activateLED, hba]
    · have hba : a ≠ b := hab
      simp [triggerAlarm, activateLED, hba]

/-- C2 (witness): the amended preemption behaviour at the concrete
two-court input with all clips available. -/
theorem C2_witness :
    (triggerAlarm envAll 50 1 12 false c2St).channel =
      playResult envAll c2St.config 1 false ∧
    (triggerAlarm envAll 50 1 12 false c2St).leds 0 = c2St.leds 0 := by
  have h := C2_single_channel_preemption.2 envAll 50 0 1 12 false c2St
    ⟨0, false, Src.sd, "/audio/alarm1.wav"⟩ rfl rfl rfl (by decide)
  exact ⟨h.1, h.2.2.2.1⟩

/-! Claim C3: non-looping alarm deactivation. -/

theorem updateAlarmCourt_skip (env : AudioEnv) (now : Nat) (i : Fin 4)
    (s : SysState)
    (h : (s.alarmStates i).active = true →
      usub now (s.alarmStates i).startTime < (s.alarmStates i).duration) :
    updateAlarmCourt env now i s = s := by
  unfold updateAlarmCourt
  dsimp only
  split
  · rfl
  · rename_i hact
    have ha : (s.alarmStates i).active = true := by
      revert hact
      cases (s.alarmStates i).active <;> simp
    rw [if_neg (Nat.not_le.mpr (h ha))]

theorem updateAlarmCourt_deact (env : AudioEnv) (now : Nat) (i : Fin 4)
    (s : SysState)
    (hact : (s.alarmStates i).active = true)
    (hloop : ((s.alarmStates i).looping && (s.courtSettings i).loopAlarm) = false)
    (helap : (s.alarmStates i).duration ≤ usub now (s.alarmStates i).startTime) :
    updateAlarmCourt env now i s =
      stopAudio (deactivateLED i
        { s with alarmStates :=
                   upd s.alarmStates i { s.alarmStates i with active := false } }) := by
  unfold updateAlarmCourt
  dsimp only
  rw [if_neg (by simp [hact]), if_pos helap, if_neg (by simp [hloop])]

theorem updateAlarms_chain (env : AudioEnv) (now : Nat) (s : SysState) :
    updateAlarms env now s =
      updateAlarmCourt env now 3 (updateAlarmCourt env now 2
        (updateAlarmCourt env now 1 (updateAlarmCourt env now 0 s))) := rfl

/-- C3 (counterexample): the court 0 alarm is active, non-looping and its
window has elapsed, while the channel belongs to court 1 (whose alarm is
active and mid-window).  The update pass stops the channel anyway: court 1
playback does not continue. -/
theorem C3_counterexample :
    (c3St.alarmStates 0).active = true ∧
    (c3St.alarmStates 0).looping = false ∧
    c3St.channel = some ⟨1, false, Src.sd, "/audio/alarm2.wav"⟩ ∧
    (c3St.alarmStates 1).active = true ∧
    (updateAlarms envAll 10000 c3St).channel = none := by
  decide

/-- C3 (amended): when the window of an active non-looping alarm of court c
elapses (and no other court acts on the same pass), the pass deactivates it
exactly once — the active flag clears, the LED of c goes off, a later pass
skips court c — and it stops the audio channel unconditionally, leaving the
channel idle even when the channel belongs to another court. -/
theorem C3_nonlooping_deactivation (env : AudioEnv) (now : Nat) (c : Fin 4)
    (s : SysState)
    (hact : (s.alarmStates c).active = true)
    (hloop : ((s.alarmStates c).looping && (s.courtSettings c).loopAlarm) = false)
    (helap : (s.alarmStates c).duration ≤ usub now (s.alarmStates c).startTime)
    (hother : ∀ j : Fin 4, j ≠ c → (s.alarmStates j).active = true →
      usub now (s.alarmStates j).startTime < (s.alarmStates j).duration) :
    ((updateAlarms env now s).alarmStates c).active = false ∧
    (updateAlarms env now s).leds c = false ∧
    (updateAlarms env now s).channel = none ∧
    (∀ now2, updateAlarmCourt env now2 c (updateAlarms env now s) =
      updateAlarms env now s) := by
  have hD := updateAlarmCourt_deact env now c s hact hloop helap
  have e1 : ∀ j : Fin 4, j ≠ c →
      (updateAlarmCourt env now c s).alarmStates j = s.alarmStates j := by
    intro j hj
    rw [hD]
    simp [stopAudio, deactivateLED, hj]
  have kAfter : ∀ j : Fin 4, j ≠ c →
      updateAlarmCourt env now j (updateAlarmCourt env now c s) =
        updateAlarmCourt env now c s := by
    intro j hj
    refine updateAlarmCourt_skip env now j _ ?_
    rw [e1 j hj]
    exact hother j hj
  have kBefore : ∀ j : Fin 4, j ≠ c → updateAlarmCourt env now j s = s :=
    fun j hj => updateAlarmCourt_skip env now j s (hother j hj)
  have hcollapse : updateAlarms env now s = updateAlarmCourt env now c s := by
    have hc : c = 0 ∨ c = 1 ∨ c = 2 ∨ c = 3 := by
      fin_cases c <;> simp
    rcases hc with rfl | rfl | rfl | rfl
    · rw [updateAlarms_chain, kAfter 1 (by decide), kAfter 2 (by decide),
        kAfter 3 (by decide)]
    · rw [updateAlarms_chain, kBefore 0 (by decide), kAfter 2 (by decide),
        kAfter 3 (by decide)]
    · rw [updateAlarms_chain, kBefore 0 (by decide), kBefore 1 (by decide),
        kAfter 3 (by decide)]
    · rw [updateAlarms_chain, kBefore 0 (by decide), kBefore 1 (by decide),
        kBefore 2 (by decide)]
  rw [hcollapse, hD]
  refine ⟨?_, ?_, rfl, ?_⟩
  · simp [stopAudio, deactivateLED]
  · simp [stopAudio, deactivateLED]
  · intro now2
    apply updateAlarmCourt_skip
    intro ha
    simp [stopAudio, deactivateLED] at ha

/-- C3 (witness): the amended deactivation behaviour at the concrete input
where court 1 owns the channel. -/
theorem C3_witness :
    ((updateAlarms envAll 10000 c3St).alarmStates 0).active = false ∧
    (updateAlarms envAll 10000 c3St).leds 0 = false ∧
    (updateAlarms envAll 10000 c3St).channel = none := by
  have h := C3_nonlooping_deactivation envAll 10000 0 c3St (by decide) (by decide)
    (by decide) (by decide)
  exact ⟨h.1, h.2.1, h.2.2.1⟩


/-! Claim C4: same-tick double expiry, courts processed in index order. -/

theorem timerTick_idle (cs : CourtSettings) (now : Nat) (tm : Timer)
    (h : tm.running = false ∨ tm.paused = true) :
    timerTick cs now tm = (tm, []) := by
  unfold timerTick
  rcases h with h | h <;> simp [h]

theorem remainingOf_eq (now : Nat) (tm : Timer) :
    remainingOf now tm =
      ((usub tm.duration (usub now tm.startTime)) / 1000 : Nat) := by
  unfold remainingOf
  dsimp only
  rw [if_neg (not_lt.mpr (Int.natCast_nonneg _))]

theorem timerTick_expire (cs : CourtSettings) (now : Nat) (tm : Timer)
    (hrun : tm.running = true) (hp : tm.paused = false)
    (hlatch : tm.alarmTriggered = false)
    (hrem : usub tm.duration (usub now tm.startTime) < 1000) :
    timerTick cs now tm = (expiredTimer now tm, [TEv.expired]) := by
  have h0 : remainingOf now tm = 0 := by
    rw [remainingOf_eq, Nat.div_eq_of_lt hrem]
    rfl
  unfold timerTick expiredTimer
  simp [hrun, hp, h0, hlatch]

theorem foldl_applyTimerEvent_timers (env : AudioEnv) (now : Nat) (i : Fin 4)
    (l : List TEv) (s : SysState) :
    (l.foldl (fun acc ev => applyTimerEvent env now i ev acc) s).timers =
      s.timers := by
  induction l generalizing s with
  | nil => rfl
  | cons e l ih =>
    rw [List.foldl_cons, ih]
    cases e <;> rfl

theorem foldl_applyTimerEvent_settings (env : AudioEnv) (now : Nat) (i : Fin 4)
    (l : List TEv) (s : SysState) :
    (l.foldl (fun acc ev => applyTimerEvent env now i ev acc) s).courtSettings =
      s.courtSettings := by
  induction l generalizing s with
  | nil => rfl
  | cons e l ih =>
    rw [List.foldl_cons, ih]
    cases e <;> rfl

theorem updateTimersCourt_timers (env : AudioEnv) (now : Nat) (i : Fin 4)
    (s : SysState) :
    (updateTimersCourt env now i s).timers =
      upd s.timers i (timerTick (s.courtSettings i) now (s.timers i)).1 := by
  unfold updateTimersCourt
  rw [foldl_applyTimerEvent_timers]

theorem updateTimersCourt_settings (env : AudioEnv) (now : Nat) (i : Fin 4)
    (s : SysState) :
    (updateTimersCourt env now i s).courtSettings = s.courtSettings := by
  unfold updateTimersCourt
  rw [foldl_applyTimerEvent_settings]

theorem updateTimersCourt_not_running (env : AudioEnv) (now : Nat) (i : Fin 4)
    (s : SysState) (h : (s.timers i).running = false) :
    updateTimersCourt env now i s = s := by
  simp only [updateTimersCourt]
  rw [timerTick_idle _ _ _ (Or.inl h)]
  simp [upd_self]

theorem updateTimers_chain (env : AudioEnv) (now : Nat) (s : SysState) :
    updateTimers env now s =
      updateTimersCourt env now 3 (updateTimersCourt env now 2
        (updateTimersCourt env now 1 (updateTimersCourt env now 0 s))) := rfl

/-- C4: when courts 0 and 1 both reach expiry on the same update pass, the
loop handles court 0 first and court 1 second, so the channel ends up with
the outcome of the court 1 expiry playback (the court 1 expiry clip
whenever one opens), while court 0 keeps an active AlarmState and a lit LED
with no audio of its own; both timers stop running. -/
theorem C4_same_tick_double_expiry (env : AudioEnv) (t : Nat) (s : SysState)
    (hready : env.audioSystemReady = true)
    (hrun0 : (s.timers 0).running = true) (hp0 : (s.timers 0).paused = false)
    (hl0 : (s.timers 0).alarmTriggered = false)
    (hrem0 : usub (s.timers 0).duration (usub t (s.timers 0).startTime) < 1000)
    (hrun1 : (s.timers 1).running = true) (hp1 : (s.timers 1).paused = false)
    (hl1 : (s.timers 1).alarmTriggered = false)
    (hrem1 : usub (s.timers 1).duration (usub t (s.timers 1).startTime) < 1000)
    (hr2 : (s.timers 2).running = false) (hr3 : (s.timers 3).running = false) :
    (updateTimers env t s).channel = playResult env s.config 1 false ∧
    (∀ cl, (updateTimers env t s).channel = some cl →
      cl.court = 1 ∧ cl.isWarning = false) ∧
    ((updateTimers env t s).alarmStates 0).active = true ∧
    (updateTimers env t s).leds 0 = true ∧
    ((updateTimers env t s).timers 0).running = false ∧
    ((updateTimers env t s).alarmStates 1).active = true ∧
    (updateTimers env t s).leds 1 = true ∧
    ((updateTimers env t s).timers 1).running = false := by
  set A := updateTimersCourt env t 0 s with hAdef
  set B := updateTimersCourt env t 1 A with hBdef
  have htick0 := timerTick_expire (s.courtSettings 0) t (s.timers 0) hrun0 hp0 hl0 hrem0
  have hA : A = triggerAlarm env t 0 s.config.alarmDuration false
      { s with timers := upd s.timers 0 (expiredTimer t (s.timers 0)) } := by
    rw [hAdef]
    simp only [updateTimersCourt]
    rw [htick0]
    rfl
  have hAtimers : A.timers = upd s.timers 0 (expiredTimer t (s.timers 0)) := by
    rw [hA]
    rfl
  have hAsettings : A.courtSettings = s.courtSettings := by rw [hA]; rfl
  have hAconfig : A.config = s.config := by rw [hA]; rfl
  have hAalarm : A.alarmStates = upd s.alarmStates 0
      ⟨true, t, s.config.alarmDuration * 1000, false, 0,
        (s.courtSettings 0).loopAlarm⟩ := by rw [hA]; rfl
  have hAleds : A.leds = upd s.leds 0 true := by rw [hA]; rfl
  have hat1 : A.timers 1 = s.timers 1 := by
    rw [hAtimers]
    simp
  have htick1 := timerTick_expire (A.courtSettings 1) t (A.timers 1)
    (by rw [hat1]; exact hrun1) (by rw [hat1]; exact hp1)
    (by rw [hat1]; exact hl1) (by rw [hat1]; exact hrem1)
  have hB : B = triggerAlarm env t 1 A.config.alarmDuration false
      { A with timers := upd A.timers 1 (expiredTimer t (A.timers 1)) } := by
    rw [hBdef]
    simp only [updateTimersCourt]
    rw [htick1]
    rfl
  have hBtimers : B.timers = upd A.timers 1 (expiredTimer t (A.timers 1)) := by
    rw [hB]
    rfl
  have hBalarm : B.alarmStates = upd A.alarmStates 1
      ⟨true, t, A.config.alarmDuration * 1000, false, 1,
        (A.courtSettings 1).loopAlarm⟩ := by rw [hB]; rfl
  have hBleds : B.leds = upd A.leds 1 true := by rw [hB]; rfl
  have hBchan : B.channel = playResult env A.config 1 false := by
    rw [hB]
    simp [triggerAlarm, activateLED, playAudio, hready]
  have hbt2 : B.timers 2 = s.timers 2 := by
    rw [hBtimers]
    rw [upd_ne _ _ _ _ (by decide), hAtimers, upd_ne _ _ _ _ (by decide)]
  have hbt3 : B.timers 3 = s.timers 3 := by
    rw [hBtimers]
    rw [upd_ne _ _ _ _ (by decide), hAtimers, upd_ne _ _ _ _ (by decide)]
  have hskip2 : updateTimersCourt env t 2 B = B :=
    updateTimersCourt_not_running env t 2 B (by rw [hbt2]; exact hr2)
  have hskip3 : updateTimersCourt env t 3 B = B :=
    updateTimersCourt_not_running env t 3 B (by rw [hbt3]; exact hr3)
  have hfinal : updateTimers env t s = B := by
    rw [updateTimers_chain, ← hAdef, ← hBdef, hskip2, hskip3]
  rw [hfinal]
  refine ⟨?_, ?_, ?_, ?_, ?_, ?_, ?_, ?_⟩
  · rw [hBchan, hAconfig]
  · intro cl hcl
    rw [hBchan, hAconfig] at hcl
    exact playResult_shape env s.config 1 false cl hcl
  · rw [hBalarm, upd_ne _ _ _ _ (by decide), hAalarm, upd_same]
  · rw [hBleds, upd_ne _ _ _ _ (by decide), hAleds, upd_same]
  · rw [hBtimers, upd_ne _ _ _ _ (by decide), hAtimers, upd_same]
    rfl
  · rw [hBalarm, upd_same]
  · rw [hBleds, upd_same]
  · rw [hBtimers, upd_same]
    rfl

/-- C4 (witness): the double-expiry behaviour at the concrete input where
courts 0 and 1 both started 60 s runs at clock 0 and the pass runs at
clock 60000 with every clip available. -/
theorem C4_witness :
    (updateTimers envAll 60000 c4St).channel =
      playResult envAll c4St.config 1 false ∧
    ((updateTimers envAll 60000 c4St).alarmStates 0).active = true ∧
    (updateTimers envAll 60000 c4St).leds 0 = true ∧
    ((updateTimers envAll 60000 c4St).timers 0).running = false := by
  have h := C4_same_tick_double_expiry envAll 60000 c4St rfl (by decide)
    (by decide) (by decide) (by decide) (by decide) (by decide) (by decide)
    (by decide) (by decide) (by decide)
  exact ⟨h.1, h.2.2.1, h.2.2.2.1, h.2.2.2.2.1⟩

/-! Claim C7: one-shot latches. -/

theorem timerTick_warning_mono (cs : CourtSettings) (now : Nat) (tm : Timer)
    (h : tm.warningTriggered = true) :
    (timerTick cs now tm).1.warningTriggered = true ∧
    TEv.warning ∉ (timerTick cs now tm).2 := by
  unfold timerTick
  dsimp only
  by_cases hr : (!tm.running || tm.paused) = true
  · simp [hr, h]
  · by_cases ha : tm.alarmTriggered = true <;>
      by_cases h3 : remainingOf now tm ≤ 0 <;>
      simp [hr, h, ha, h3]

theorem timerTick_expired_mono (cs : CourtSettings) (now : Nat) (tm : Timer)
    (h : tm.alarmTriggered = true) :
    (timerTick cs now tm).1.alarmTriggered = true ∧
    TEv.expired ∉ (timerTick cs now tm).2 := by
  unfold timerTick
  dsimp only
  by_cases hr : (!tm.running || tm.paused) = true
  · simp [hr, h]
  · by_cases hw : tm.warningTriggered = true <;>
      by_cases h1 : remainingOf now tm ≤ cs.warningTime * 60 <;>
      by_cases h2 : 0 < remainingOf now tm <;>
      by_cases h3 : remainingOf now tm ≤ 0 <;>
      simp [hr, h, hw, h1, h2, h3]

theorem timerTick_warning_fired (cs : CourtSettings) (now : Nat) (tm : Timer)
    (h : TEv.warning ∈ (timerTick cs now tm).2) :
    (timerTick cs now tm).1.warningTriggered = true := by
  by_cases hl : tm.warningTriggered = true
  · exact (timerTick_warning_mono cs now tm hl).1
  · revert h
    unfold timerTick
    dsimp only
    by_cases hr : (!tm.running || tm.paused) = true
    · simp [hr]
    · by_cases ha : tm.alarmTriggered = true <;>
        by_cases h1 : remainingOf now tm ≤ cs.warningTime * 60 <;>
        by_cases h2 : 0 < remainingOf now tm <;>
        by_cases h3 : remainingOf now tm ≤ 0 <;>
        simp [hr, hl, ha, h1, h2, h3]

theorem timerTick_expired_fired (cs : CourtSettings) (now : Nat) (tm : Timer)
    (h : TEv.expired ∈ (timerTick cs now tm).2) :
    (timerTick cs now tm).1.alarmTriggered = true ∧
    (timerTick cs now tm).1.running = false := by
  by_cases hl : tm.alarmTriggered = true
  · exfalso
    exact (timerTick_expired_mono cs now tm hl).2 h
  · revert h
    unfold timerTick
    dsimp only
    by_cases hr : (!tm.running || tm.paused) = true
    · simp [hr]
    · by_cases hw : tm.warningTriggered = true <;>
        by_cases h1 : remainingOf now tm ≤ cs.warningTime * 60 <;>
        by_cases h2 : 0 < remainingOf now tm <;>
        by_cases h3 : remainingOf now tm ≤ 0 <;>
        simp [hr, hl, hw, h1, h2, h3]

theorem timerTick_warning_single (cs : CourtSettings) (now : Nat) (tm : Timer) :
    countEv TEv.warning (timerTick cs now tm).2 ≤ 1 := by
  unfold timerTick countEv
  dsimp only
  by_cases hr : (!tm.running || tm.paused) = true
  · simp [hr]
  · by_cases hw : tm.warningTriggered = true <;>
      by_cases h1 : remainingOf now tm ≤ cs.warningTime * 60 <;>
      by_cases h2 : 0 < remainingOf now tm <;>
      by_cases h3 : remainingOf now tm ≤ 0 <;>
      by_cases ha : tm.alarmTriggered = true <;>
      simp [hr, hw, h1, h2, h3, ha, List.count_append]

theorem timerTick_expired_single (cs : CourtSettings) (now : Nat) (tm : Timer) :
    countEv TEv.expired (timerTick cs now tm).2 ≤ 1 := by
  unfold timerTick countEv
  dsimp only
  by_cases hr : (!tm.running || tm.paused) = true
  · simp [hr]
  · by_cases hw : tm.warningTriggered = true <;>
      by_cases h1 : remainingOf now tm ≤ cs.warningTime * 60 <;>
      by_cases h2 : 0 < remainingOf now tm <;>
      by_cases h3 : remainingOf now tm ≤ 0 <;>
      by_cases ha : tm.alarmTriggered = true <;>
      simp [hr, hw, h1, h2, h3, ha, List.count_append]

theorem runTicks_warning_zero (cs : CourtSettings) (ts : List Nat) :
    ∀ tm : Timer, tm.warningTriggered = true →
      countEv TEv.warning (runTicks cs tm ts).2 = 0 := by
  induction ts with
  | nil => intro tm _; rfl
  | cons t ts ih =>
    intro tm h
    have hm := timerTick_warning_mono cs t tm h
    simp only [runTicks, countEv, List.count_append]
    rw [List.count_eq_zero.mpr hm.2]
    have := ih (timerTick cs t tm).1 hm.1
    simpa [countEv] using this

theorem runTicks_expired_zero (cs : CourtSettings) (ts : List Nat) :
    ∀ tm : Timer, tm.alarmTriggered = true →
      countEv TEv.expired (runTicks cs tm ts).2 = 0 := by
  induction ts with
  | nil => intro tm _; rfl
  | cons t ts ih =>
    intro tm h
    have hm := timerTick_expired_mono cs t tm h
    simp only [runTicks, countEv, List.count_append]
    rw [List.count_eq_zero.mpr hm.2]
    have := ih (timerTick cs t tm).1 hm.1
    simpa [countEv] using this

theorem runTicks_warning_le_one (cs : CourtSettings) (ts : List Nat) :
    ∀ tm : Timer, countEv TEv.warning (runTicks cs tm ts).2 ≤ 1 := by
  induction ts with
  | nil => intro tm; simp [runTicks, countEv]
  | cons t ts ih =>
    intro tm
    simp only [runTicks, countEv, List.count_append]
    by_cases hw : TEv.warning ∈ (timerTick cs t tm).2
    · have h1 := timerTick_warning_fired cs t tm hw
      have h0 := runTicks_warning_zero cs ts (timerTick cs t tm).1 h1
      have hs := timerTick_warning_single cs t tm
      simp only [countEv] at h0 hs
      omega
    · rw [List.count_eq_zero.mpr hw]
      have := ih (timerTick cs t tm).1
      simpa [countEv] using this

theorem runTicks_expired_le_one (cs : CourtSettings) (ts : List Nat) :
    ∀ tm : Timer, countEv TEv.expired (runTicks cs tm ts).2 ≤ 1 := by
  induction ts with
  | nil => intro tm; simp [runTicks, countEv]
  | cons t ts ih =>
    intro tm
    simp only [runTicks, countEv, List.count_append]
    by_cases hw : TEv.expired ∈ (timerTick cs t tm).2
    · have h1 := (timerTick_expired_fired cs t tm hw).1
      have h0 := runTicks_expired_zero cs ts (timerTick cs t tm).1 h1
      have hs := timerTick_expired_single cs t tm
      simp only [countEv] at h0 hs
      omega
    · rw [List.count_eq_zero.mpr hw]
      have := ih (timerTick cs t tm).1
      simpa [countEv] using this

theorem updateTimers_timers (env : AudioEnv) (now : Nat) (s : SysState)
    (i : Fin 4) :
    (updateTimers env now s).timers i =
      (timerTick (s.courtSettings i) now (s.timers i)).1 := by
  have f0 := updateTimersCourt_settings env now 0 s
  have e0 := updateTimersCourt_timers env now 0 s
  have e1 := updateTimersCourt_timers env now 1 (updateTimersCourt env now 0 s)
  rw [f0, e0, upd_ne s.timers 0 1 _ (by decide)] at e1
  have f1 := updateTimersCourt_settings env now 1 (updateTimersCourt env now 0 s)
  rw [f0] at f1
  have e2 := updateTimersCourt_timers env now 2
    (updateTimersCourt env now 1 (updateTimersCourt env now 0 s))
  rw [f1, e1, upd_ne _ 1 2 _ (by decide), upd_ne s.timers 0 2 _ (by decide)] at e2
  have f2 := updateTimersCourt_settings env now 2
    (updateTimersCourt env now 1 (updateTimersCourt env now 0 s))
  rw [f1] at f2
  have e3 := updateTimersCourt_timers env now 3
    (updateTimersCourt env now 2 (updateTimersCourt env now 1
      (updateTimersCourt env now 0 s)))
  rw [f2, e2, upd_ne _ 2 3 _ (by decide), upd_ne _ 1 3 _ (by decide),
    upd_ne s.timers 0 3 _ (by decide)] at e3
  rw [updateTimers_chain, e3]
  have hc : i = 0 ∨ i = 1 ∨ i = 2 ∨ i = 3 := by fin_cases i <;> simp
  rcases hc with rfl | rfl | rfl | rfl
  · rw [upd_ne _ 3 0 _ (by decide), upd_ne _ 2 0 _ (by decide),
      upd_ne _ 1 0 _ (by decide), upd_same]
  · rw [upd_ne _ 3 1 _ (by decide), upd_ne _ 2 1 _ (by decide), upd_same]
  · rw [upd_ne _ 3 2 _ (by decide), upd_same]
  · rw [upd_same]

/-- C7: over any sequence of update passes, the warning event and the
expiry event of a court each fire at most once (the latch blocks further
firings no matter how many passes satisfy the threshold); an expiry event
forces running to false in the same pass; a Start request clears both
latches; and within a full updateTimers pass each timer evolves exactly by
its per-court tick. -/
theorem C7_one_shot_latches :
    (∀ cs tm ts, countEv TEv.warning (runTicks cs tm ts).2 ≤ 1 ∧
                 countEv TEv.expired (runTicks cs tm ts).2 ≤ 1) ∧
    (∀ cs now tm, TEv.expired ∈ (timerTick cs now tm).2 →
      (timerTick cs now tm).1.running = false) ∧
    (∀ (c : Fin 4) (d : Int) (p : String) (now : Nat) (s : SysState),
      ((handleStart c.val d p now s).timers c).warningTriggered = false ∧
      ((handleStart c.val d p now s).timers c).alarmTriggered = false) ∧
    (∀ env now s (i : Fin 4),
      (updateTimers env now s).timers i =
        (timerTick (s.courtSettings i) now (s.timers i)).1) := by
  refine ⟨?_, ?_, ?_, ?_⟩
  · intro cs tm ts
    exact ⟨runTicks_warning_le_one cs ts tm, runTicks_expired_le_one cs ts tm⟩
  · intro cs now tm h
    exact (timerTick_expired_fired cs now tm h).2
  · intro c d p now s
    rw [handleStart_val]
    constructor <;> simp [handleStartCourt]
  · intro env now s i
    exact updateTimers_timers env now s i

/-- C7 (witness): the expiry latch consequence at a concrete expiring tick,
through the one-shot theorem. -/
theorem C7_witness :
    TEv.expired ∈ (timerTick defaultSettings 5000 c7Timer).2 ∧
    (timerTick defaultSettings 5000 c7Timer).1.running = false :=
  ⟨by decide,
   C7_one_shot_latches.2.1 defaultSettings 5000 c7Timer (by decide)⟩


/-! Claim C8: pause/resume leaves remaining unchanged; no-op when idle. -/

theorem usub_resume (st t1 t2 : Nat) :
    usub t2 ((st + usub t2 t1) % ulMod) = usub t1 st := by
  unfold usub ulMod
  omega

theorem remainingOf_resume (t1 t2 : Nat) (tm tm2 : Timer)
    (hd : tm2.duration = tm.duration)
    (hst : tm2.startTime = (tm.startTime + usub t2 t1) % ulMod) :
    remainingOf t2 tm2 = remainingOf t1 tm := by
  rw [remainingOf_eq, remainingOf_eq, hd, hst, usub_resume]

theorem timerTick_remainingTime (cs : CourtSettings) (now : Nat) (tm : Timer)
    (hrun : tm.running = true) (hp : tm.paused = false) :
    (timerTick cs now tm).1.remainingTime = (remainingOf now tm).toNat := by
  unfold timerTick
  dsimp only
  by_cases hw : tm.warningTriggered = true <;>
    by_cases ha : tm.alarmTriggered = true <;>
    by_cases h1 : remainingOf now tm ≤ cs.warningTime * 60 <;>
    by_cases h2 : 0 < remainingOf now tm <;>
    by_cases h3 : remainingOf now tm ≤ 0 <;>
    simp [hrun, hp, hw, ha, h1, h2, h3]

theorem handlePauseCourt_pause (i : Fin 4) (now : Nat) (s : SysState)
    (hrun : (s.timers i).running = true) (hp : (s.timers i).paused = false) :
    handlePauseCourt i now s =
      { s with timers := upd s.timers i (pausedTimer now (s.timers i)) } := by
  unfold handlePauseCourt
  rw [if_pos (by simp [hrun, hp])]

theorem handlePauseCourt_resume (i : Fin 4) (now : Nat) (s : SysState)
    (hp : (s.timers i).paused = true) :
    handlePauseCourt i now s =
      { s with timers := upd s.timers i (resumedTimer now (s.timers i)) } := by
  unfold handlePauseCourt
  rw [if_neg (by simp [hp]), if_pos hp]

theorem handlePauseCourt_noop (i : Fin 4) (now : Nat) (s : SysState)
    (hrun : (s.timers i).running = false) (hp : (s.timers i).paused = false) :
    handlePauseCourt i now s = s := by
  unfold handlePauseCourt
  rw [if_neg (by simp [hrun]), if_neg (by simp [hp])]

/-- C8: pausing a running, unpaused timer at clock t1 and resuming at clock
t2 shifts startTime forward by exactly the paused interval, so the
remaining time computed on a tick at t2 after the resume equals the
remaining time a tick at t1 would have computed before the pause - the
pause window is excluded exactly, with no drift; and the toggle is a no-op
on a timer that is not running (and hence, by the paused-implies-running
invariant of the data model, not paused). -/
theorem C8_pause_resume (c : Fin 4) (s : SysState) (t1 t2 : Nat) :
    ((s.timers c).running = true → (s.timers c).paused = false →
      ((handlePause c.val t2 (handlePause c.val t1 s)).timers c).running = true ∧
      ((handlePause c.val t2 (handlePause c.val t1 s)).timers c).paused = false ∧
      (timerTick (s.courtSettings c) t2
        ((handlePause c.val t2 (handlePause c.val t1 s)).timers c)).1.remainingTime =
        (timerTick (s.courtSettings c) t1 (s.timers c)).1.remainingTime) ∧
    ((s.timers c).running = false → (s.timers c).paused = false →
      handlePause c.val t1 s = s) := by
  constructor
  · intro hrun hp
    rw [handlePause_val, handlePause_val]
    rw [handlePauseCourt_pause c t1 s hrun hp]
    set X : SysState :=
      { s with timers := upd s.timers c (pausedTimer t1 (s.timers c)) } with hX
    have hxt : X.timers c = pausedTimer t1 (s.timers c) := by
      rw [hX]
      simp
    have hXp : (X.timers c).paused = true := by rw [hxt]; rfl
    rw [handlePauseCourt_resume c t2 X hXp]
    have hyt : (({ X with timers := upd X.timers c (resumedTimer t2 (X.timers c)) }
        : SysState).timers c) = resumedTimer t2 (X.timers c) := by
      simp
    rw [hyt, hxt]
    have hyrun : (resumedTimer t2 (pausedTimer t1 (s.timers c))).running = true := hrun
    have hyp : (resumedTimer t2 (pausedTimer t1 (s.timers c))).paused = false := rfl
    refine ⟨hyrun, hyp, ?_⟩
    rw [timerTick_remainingTime _ _ _ hyrun hyp,
      timerTick_remainingTime _ _ _ hrun hp,
      remainingOf_resume t1 t2 (s.timers c)
        (resumedTimer t2 (pausedTimer t1 (s.timers c))) rfl rfl]
  · intro hrun hp
    rw [handlePause_val]
    exact handlePauseCourt_noop c t1 s hrun hp

/-- C8 (witness): pause at 5000 and resume at 9000 of the court 0 timer
started at clock 100 leaves the computed remaining time equal to the one
computed before the pause. -/
theorem C8_witness :
    ((handlePause 0 9000 (handlePause 0 5000 c8St)).timers 0).running = true ∧
    (timerTick (c8St.courtSettings 0) 9000
      ((handlePause 0 9000 (handlePause 0 5000 c8St)).timers 0)).1.remainingTime =
      (timerTick (c8St.courtSettings 0) 5000 (c8St.timers 0)).1.remainingTime := by
  have h := (C8_pause_resume 0 c8St 5000 9000).1 (by decide) (by decide)
  exact ⟨h.1, h.2.2⟩

/-! Claim C9: monotonicity of remaining, and the unsigned wrap. -/

/-- C9: evaluation of the update-pass arithmetic at the failing input.  The
court timer runs a 60 s window from clock 0; a tick at 58999 computes
remaining = 1, and the next tick at 60001 - past the window end - computes
remaining = (60000 - 60001) on unsigned long, i.e. 4294967295 ms, so
remainingTime jumps from 1 up to 4294967 seconds while the timer is still
running and unpaused, and the expiry comparison remaining less-or-equal 0
never fires.  The dead clamp if (remaining less than 0) remaining = 0 in
the source shows the intended signed semantics under which remaining would
have clamped to 0 and stayed monotone. -/
theorem C9_unsigned_wrap :
    (c9Timer.running = true ∧ c9Timer.paused = false) ∧
    (c9Tm1.running = true ∧ c9Tm1.paused = false) ∧
    c9Tm1.remainingTime = 1 ∧
    (c9Tm2.running = true ∧ c9Tm2.paused = false) ∧
    c9Tm2.remainingTime = 4294967 ∧
    c9Tm1.remainingTime < c9Tm2.remainingTime := by
  decide

/-! Claim C10: SD-configured playback never consults LittleFS. -/

theorem tryOpen_sd (env : AudioEnv) (i : Fin 4) (w : Bool) (p : String)
    (cl : Clip) (h : tryOpen env true i w p = some cl) :
    cl = ⟨i, w, Src.sd, p⟩ := by
  unfold tryOpen at h
  rw [if_pos rfl] at h
  by_cases hc : (env.sdExists p && env.sdBeginOk p) = true
  · rw [if_pos hc] at h
    exact (Option.some.inj h).symm
  · rw [if_neg hc] at h
    exact absurd h (by simp)

theorem tryOpen_sd_none (env : AudioEnv) (i : Fin 4) (w : Bool) (p : String)
    (hc : (env.sdExists p && env.sdBeginOk p) = false) :
    tryOpen env true i w p = none := by
  unfold tryOpen
  rw [if_pos rfl, if_neg (by simp [hc])]

/-- C10: with the SD card selected and available, playAudio consults only
the SD backend: every clip it installs is an SD clip whose path is the
court-specific file or the device default, regardless of what LittleFS
holds; and when neither SD path opens, the channel is left idle - the
LittleFS backend is never tried as a fallback. -/
theorem C10_sd_only (env : AudioEnv) (cfg : Config) (i : Fin 4) (w : Bool)
    (ch : Option Clip)
    (hsd : cfg.useSDCard = true) (hav : env.sdCardAvailable = true)
    (hready : env.audioSystemReady = true) :
    (playAudio env cfg i w ch = playResult env cfg i w) ∧
    (∀ cl, playAudio env cfg i w ch = some cl →
      cl.src = Src.sd ∧
      (cl.path = audioFiles i w ∨ cl.path = defaultAudioFiles w)) ∧
    ((env.sdExists (audioFiles i w) && env.sdBeginOk (audioFiles i w)) = false →
     (env.sdExists (defaultAudioFiles w) && env.sdBeginOk (defaultAudioFiles w)) = false →
     playAudio env cfg i w ch = none) := by
  have huse : (cfg.useSDCard && env.sdCardAvailable) = true := by
    rw [hsd, hav]
    rfl
  have hpa : playAudio env cfg i w ch = playResult env cfg i w := by
    unfold playAudio
    rw [hready]
    rfl
  refine ⟨hpa, ?_, ?_⟩
  · intro cl hcl
    rw [hpa] at hcl
    simp only [playResult] at hcl
    rw [huse] at hcl
    cases hh : tryOpen env true i w (audioFiles i w) with
    | none =>
      rw [hh] at hcl
      dsimp only at hcl
      rw [tryOpen_sd env i w _ cl hcl]
      exact ⟨rfl, Or.inr rfl⟩
    | some c =>
      rw [hh] at hcl
      dsimp only at hcl
      have hc := Option.some.inj hcl
      rw [← hc, tryOpen_sd env i w _ c hh]
      exact ⟨rfl, Or.inl rfl⟩
  · intro hf hd
    rw [hpa]
    simp only [playResult]
    rw [huse, tryOpen_sd_none env i w _ hf]
    dsimp only
    exact tryOpen_sd_none env i w _ hd

/-- C10 (witness): the SD-only behaviour at a concrete environment where
every file opens. -/
theorem C10_witness :
    playAudio envAll defaultConfig 0 false none =
      playResult envAll defaultConfig 0 false ∧
    playResult envAll defaultConfig 0 false =
      some ⟨0, false, Src.sd, "/audio/alarm1.wav"⟩ := by
  have h := C10_sd_only envAll defaultConfig 0 false none rfl rfl rfl
  exact ⟨h.1, by decide⟩
